import Mathlib

/-
Verification of create_icon.py: a script that converts robot_icon.svg to
robot_icon_1024.png by trying, in order, the rsvg-convert subprocess, the
cairosvg library in-process, and the ImageMagick convert subprocess, then
checks that the output file exists and exits accordingly.

The script is embedded shallowly: every interaction with the outside world
(the outcome of each subprocess invocation, whether the cairosvg import and
conversion succeed, and the final file-existence check) is a field of an
environment record, and the script body is a pure function of that record.
The result records the lines printed to stdout, the external calls that were
made with their exact arguments, and either the value returned by
create_png_from_svg or the Python exception that escaped it uncaught.
-/

namespace CreateIcon

/-- Outcome of a subprocess.run invocation with check=True: the tool ran and
exited zero, the executable was missing (FileNotFoundError), or the tool
exited with a nonzero status (CalledProcessError). -/
inductive ToolOutcome where
  | success
  | notFound
  | calledProcessError
deriving DecidableEq, Repr

/-- A Python exception that escapes create_png_from_svg uncaught. The only
such exception in the embedded control flow is one raised by
cairosvg.svg2png after a successful import, since the surrounding block
catches only ImportError. -/
inductive PyError where
  | cairosvgConversionError
deriving DecidableEq, Repr

/-- One external action performed by the script: a subprocess.run with its
full argument list, the attempted import of cairosvg, or an in-process
cairosvg.svg2png call with its keyword parameters. -/
inductive ToolCall where
  | subprocessRun (args : List String)
  | cairosvgImport
  | cairosvgSvg2png (url writeTo : String) (outputWidth outputHeight : Nat)
deriving DecidableEq, Repr

/-- The external world as the script observes it during one run: the outcome
of each candidate converter, whether robot_icon_1024.png exists when the
final check runs, and the process environment variables (which the script
never reads; they are carried to state non-configurability). -/
structure Env where
  rsvg : ToolOutcome
  cairoImportOk : Bool
  cairoConvertOk : Bool
  magick : ToolOutcome
  pngExists : Bool
  envVars : List (String × String)
deriving DecidableEq, Repr

/-- svg_file = "robot_icon.svg", the hardcoded input path. -/
def svg_file : String := "robot_icon.svg"

/-- png_file = "robot_icon_1024.png", the hardcoded output path. -/
def png_file : String := "robot_icon_1024.png"

/-- Argument list of the rsvg-convert invocation, verbatim from the source. -/
def rsvgArgs : List String :=
  ["rsvg-convert", "-w", "1024", "-h", "1024", "-o", png_file, svg_file]

/-- Argument list of the ImageMagick convert invocation, verbatim from the
source. -/
def magickArgs : List String :=
  ["convert", "-background", "transparent", "-size", "1024x1024", svg_file, png_file]

instance {e a : Type} [DecidableEq e] [DecidableEq a] : DecidableEq (Except e a) :=
  fun x y =>
    match x, y with
    | Except.ok u, Except.ok v =>
        if h : u = v then isTrue (by rw [h])
        else isFalse (by intro hc; cases hc; exact h rfl)
    | Except.ok _, Except.error _ => isFalse (by intro hc; cases hc)
    | Except.error _, Except.ok _ => isFalse (by intro hc; cases hc)
    | Except.error u, Except.error v =>
        if h : u = v then isTrue (by rw [h])
        else isFalse (by intro hc; cases hc; exact h rfl)

/-- Result of one call of create_png_from_svg: the stdout lines it printed,
the external calls it made in order, and either its return value
(some path or none) or the uncaught exception that escaped it. -/
structure RunResult where
  output : List String
  calls : List ToolCall
  ret : Except PyError (Option String)
deriving DecidableEq, Repr

/-- Shallow embedding of create_png_from_svg from create_icon.py.

Control flow mirrors the source line by line: try subprocess.run of
rsvg-convert, catching CalledProcessError and FileNotFoundError; on failure
print a message and try importing cairosvg and calling
cairosvg.svg2png(url=svg_file, write_to=png_file, output_width=1024,
output_height=1024), catching only ImportError — so a svg2png failure after
a successful import escapes as an uncaught exception; on ImportError print a
message and try subprocess.run of ImageMagick convert, catching
CalledProcessError and FileNotFoundError; on failure print the two
no-converter lines and return None. -/
def create_png_from_svg (env : Env) : RunResult :=
  let rsvgCall := ToolCall.subprocessRun rsvgArgs
  match env.rsvg with
  | ToolOutcome.success =>
      { output := ["✅ Created " ++ png_file ++ " using rsvg-convert"],
        calls := [rsvgCall],
        ret := Except.ok (some png_file) }
  | _ =>
      let out1 := ["rsvg-convert not found, trying cairosvg..."]
      if env.cairoImportOk then
        let convCall := ToolCall.cairosvgSvg2png svg_file png_file 1024 1024
        if env.cairoConvertOk then
          { output := out1 ++ ["✅ Created " ++ png_file ++ " using cairosvg"],
            calls := [rsvgCall, ToolCall.cairosvgImport, convCall],
            ret := Except.ok (some png_file) }
        else
          { output := out1,
            calls := [rsvgCall, ToolCall.cairosvgImport, convCall],
            ret := Except.error PyError.cairosvgConversionError }
      else
        let out2 := out1 ++ ["cairosvg not available, trying ImageMagick..."]
        match env.magick with
        | ToolOutcome.success =>
            { output := out2 ++ ["✅ Created " ++ png_file ++ " using ImageMagick"],
              calls := [rsvgCall, ToolCall.cairosvgImport,
                        ToolCall.subprocessRun magickArgs],
              ret := Except.ok (some png_file) }
        | _ =>
            { output := out2 ++
                ["❌ No suitable SVG to PNG converter found",
                 "Please install one of: rsvg-convert, cairosvg, or ImageMagick"],
              calls := [rsvgCall, ToolCall.cairosvgImport,
                        ToolCall.subprocessRun magickArgs],
              ret := Except.ok none }

/-- Observable outcome of the whole script run: all stdout lines and the
process exit status. -/
structure ScriptResult where
  output : List String
  exitCode : Nat
deriving DecidableEq, Repr

/-- Shallow embedding of the __main__ block of create_icon.py.

It calls create_png_from_svg; if that raises, the exception is unhandled and
the Python process terminates with status 1 (the interpreter prints the
traceback to stderr, which is not part of the stdout lines modelled here).
Otherwise, if the returned value is truthy and os.path.exists(png_file)
holds, it prints the two success lines and the process exits normally with
status 0; otherwise it prints the failure line and calls sys.exit(1). -/
def script_main (env : Env) : ScriptResult :=
  let r := create_png_from_svg env
  match r.ret with
  | Except.error _ => { output := r.output, exitCode := 1 }
  | Except.ok png =>
      match png with
      | some p =>
          if env.pngExists then
            { output := r.output ++
                ["🎉 Successfully created " ++ p,
                 "You can now add this to your Xcode project's AppIcon asset catalog"],
              exitCode := 0 }
          else
            { output := r.output ++ ["❌ Failed to create PNG file"],
              exitCode := 1 }
      | none =>
          { output := r.output ++ ["❌ Failed to create PNG file"],
            exitCode := 1 }

/-- The three candidate converters of the fallback sequence. -/
inductive Tool where
  | rsvgConvert
  | cairosvg
  | imageMagick
deriving DecidableEq, Repr

/-- The converter a recorded external call belongs to. The only two
subprocess argument lists occurring in the script start with their
executable names, so the head distinguishes them. -/
def ToolCall.tool : ToolCall → Tool
  | ToolCall.subprocessRun args =>
      if args.headD "" = "convert" then Tool.imageMagick else Tool.rsvgConvert
  | ToolCall.cairosvgImport => Tool.cairosvg
  | ToolCall.cairosvgSvg2png _ _ _ _ => Tool.cairosvg

/-- The converters attempted during a run, in order, without repetition,
derived from the recorded call sequence. -/
def attempts (env : Env) : List Tool :=
  ((create_png_from_svg env).calls.map ToolCall.tool).dedup

end CreateIcon

namespace CreateIcon.Claims

/-- Claim C1, counterexample: with rsvg-convert failing, the cairosvg import
succeeding and the conversion itself raising, the error escapes
create_png_from_svg uncaught (the source catches only ImportError around the
cairosvg block) and the ImageMagick candidate is never attempted — refuting
that every per-tool error is caught and falls through. -/
theorem C1_counterexample :
    (create_png_from_svg
      { rsvg := ToolOutcome.notFound, cairoImportOk := true, cairoConvertOk := false,
        magick := ToolOutcome.success, pngExists := true, envVars := [] }).ret
      = Except.error PyError.cairosvgConversionError
    ∧ ToolCall.subprocessRun magickArgs ∉
      (create_png_from_svg
        { rsvg := ToolOutcome.notFound, cairoImportOk := true, cairoConvertOk := false,
          magick := ToolOutcome.success, pngExists := true, envVars := [] }).calls := by
  decide

/-- Claim C1 as amended: the subprocess errors of rsvg-convert and
ImageMagick and a failed cairosvg import are caught and fall through, and no
error other than a cairosvg conversion error ever propagates out of
create_png_from_svg; but an error thrown by the in-process cairosvg
conversion after a successful import is not caught, propagates to the
caller, and prevents the ImageMagick candidate from being attempted. -/
theorem C1_cairosvg_error_uncaught : ∀ env : Env,
    ((create_png_from_svg env).ret = Except.error PyError.cairosvgConversionError ↔
      (env.rsvg ≠ ToolOutcome.success ∧ env.cairoImportOk = true ∧ env.cairoConvertOk = false))
    ∧ (env.rsvg ≠ ToolOutcome.success → env.cairoImportOk = false →
        ToolCall.subprocessRun magickArgs ∈ (create_png_from_svg env).calls
        ∧ ∃ v, (create_png_from_svg env).ret = Except.ok v) := by
  intro env
  obtain ⟨r, ci, cc, m, pe, ev⟩ := env
  cases r <;> cases ci <;> cases cc <;> cases m <;> cases pe <;>
    simp [create_png_from_svg]

/-- Witness for C1_cairosvg_error_uncaught at a concrete environment where
rsvg-convert is missing and the cairosvg import fails: ImageMagick is
attempted and create_png_from_svg returns normally. -/
theorem C1_cairosvg_error_uncaught_witness :
    ToolCall.subprocessRun magickArgs ∈
      (create_png_from_svg
        { rsvg := ToolOutcome.notFound, cairoImportOk := false, cairoConvertOk := false,
          magick := ToolOutcome.success, pngExists := true, envVars := [] }).calls
    ∧ ∃ v, (create_png_from_svg
        { rsvg := ToolOutcome.notFound, cairoImportOk := false, cairoConvertOk := false,
          magick := ToolOutcome.success, pngExists := true, envVars := [] }).ret
        = Except.ok v :=
  (C1_cairosvg_error_uncaught
    { rsvg := ToolOutcome.notFound, cairoImportOk := false, cairoConvertOk := false,
      magick := ToolOutcome.success, pngExists := true, envVars := [] }).2
    (by decide) rfl

/-- Claim C2, counterexample: when the rsvg-convert invocation fails, the
script is not silent before attempting the next candidate — its very first
printed line reports the failure and names cairosvg. -/
theorem C2_counterexample :
    (create_png_from_svg
      { rsvg := ToolOutcome.notFound, cairoImportOk := true, cairoConvertOk := true,
        magick := ToolOutcome.success, pngExists := true, envVars := [] }).output.head?
      = some "rsvg-convert not found, trying cairosvg..." := by
  decide

/-- Claim C2 as amended: on each per-tool failure that falls through, the
script prints a one-line informational message naming the next candidate
(first that rsvg-convert was not found and cairosvg is tried, then that
cairosvg is unavailable and ImageMagick is tried) and then proceeds to that
next candidate; the caught error itself is not re-raised. -/
theorem C2_per_tool_failure_message : ∀ env : Env,
    (env.rsvg ≠ ToolOutcome.success →
      (create_png_from_svg env).output.head? = some "rsvg-convert not found, trying cairosvg..."
      ∧ ToolCall.cairosvgImport ∈ (create_png_from_svg env).calls)
    ∧ (env.rsvg ≠ ToolOutcome.success → env.cairoImportOk = false →
      "cairosvg not available, trying ImageMagick..." ∈ (create_png_from_svg env).output
      ∧ ToolCall.subprocessRun magickArgs ∈ (create_png_from_svg env).calls) := by
  intro env
  obtain ⟨r, ci, cc, m, pe, ev⟩ := env
  cases r <;> cases ci <;> cases cc <;> cases m <;> cases pe <;>
    simp [create_png_from_svg]

/-- Witness for C2_per_tool_failure_message at a concrete environment where
rsvg-convert exits nonzero: the fall-through message is printed and the
cairosvg candidate is attempted. -/
theorem C2_per_tool_failure_message_witness :
    (create_png_from_svg
      { rsvg := ToolOutcome.calledProcessError, cairoImportOk := true, cairoConvertOk := true,
        magick := ToolOutcome.notFound, pngExists := true, envVars := [] }).output.head?
      = some "rsvg-convert not found, trying cairosvg..."
    ∧ ToolCall.cairosvgImport ∈
      (create_png_from_svg
        { rsvg := ToolOutcome.calledProcessError, cairoImportOk := true, cairoConvertOk := true,
          magick := ToolOutcome.notFound, pngExists := true, envVars := [] }).calls :=
  (C2_per_tool_failure_message
    { rsvg := ToolOutcome.calledProcessError, cairoImportOk := true, cairoConvertOk := true,
      magick := ToolOutcome.notFound, pngExists := true, envVars := [] }).1
    (by decide)

/-- Claim C3: the process exits with status 0 exactly when
create_png_from_svg returned a non-None path and robot_icon_1024.png exists
at the final check, and every other run (total converter failure, missing
output file, or an uncaught exception) terminates with status 1. -/
theorem C3_exit_code_iff : ∀ env : Env,
    ((script_main env).exitCode = 0 ↔
      ((∃ p, (create_png_from_svg env).ret = Except.ok (some p)) ∧ env.pngExists = true))
    ∧ ((script_main env).exitCode = 0 ∨ (script_main env).exitCode = 1) := by
  intro env
  obtain ⟨r, ci, cc, m, pe, ev⟩ := env
  cases r <;> cases ci <;> cases cc <;> cases m <;> cases pe <;>
    simp [script_main, create_png_from_svg]

/-- Claim C4: the attempted converters are always an initial segment of the
fixed order rsvg-convert, cairosvg, ImageMagick, fully determined by which
earlier candidates failed; no converter is attempted twice, none is
attempted after an earlier one succeeded, and the whole run is unaffected by
the process environment variables. -/
theorem C4_fixed_order : ∀ env : Env,
    attempts env =
      (if env.rsvg = ToolOutcome.success then [Tool.rsvgConvert]
       else if env.cairoImportOk then [Tool.rsvgConvert, Tool.cairosvg]
       else [Tool.rsvgConvert, Tool.cairosvg, Tool.imageMagick])
    ∧ (attempts env).Nodup
    ∧ (∀ vars, create_png_from_svg { env with envVars := vars } = create_png_from_svg env)
    ∧ (∀ vars, script_main { env with envVars := vars } = script_main env) := by
  intro env
  obtain ⟨r, ci, cc, m, pe, ev⟩ := env
  cases r <;> cases ci <;> cases cc <;> cases m <;> cases pe <;>
    refine ⟨?_, ?_, fun vars => ?_, fun vars => ?_⟩ <;>
    simp [attempts, create_png_from_svg, script_main] <;> decide

/-- Claim C5: if create_png_from_svg returns a non-None path but the output
file does not exist at the final check, the script takes the failure branch,
prints the failure line and exits with status 1 — the terminal existence
check overrides any earlier success message. -/
theorem C5_terminal_check_authoritative : ∀ env : Env, ∀ p : String,
    (create_png_from_svg env).ret = Except.ok (some p) → env.pngExists = false →
    (script_main env).exitCode = 1
    ∧ "❌ Failed to create PNG file" ∈ (script_main env).output := by
  intro env p h1 h2
  obtain ⟨r, ci, cc, m, pe, ev⟩ := env
  subst h2
  cases r <;> cases ci <;> cases cc <;> cases m <;>
    simp_all [script_main, create_png_from_svg]

/-- Witness for C5_terminal_check_authoritative: rsvg-convert reports
success but the file is absent at the final check, and the run still fails
with exit status 1. -/
theorem C5_terminal_check_authoritative_witness :
    (script_main
      { rsvg := ToolOutcome.success, cairoImportOk := false, cairoConvertOk := false,
        magick := ToolOutcome.notFound, pngExists := false, envVars := [] }).exitCode = 1
    ∧ "❌ Failed to create PNG file" ∈
      (script_main
        { rsvg := ToolOutcome.success, cairoImportOk := false, cairoConvertOk := false,
          magick := ToolOutcome.notFound, pngExists := false, envVars := [] }).output :=
  C5_terminal_check_authoritative
    { rsvg := ToolOutcome.success, cairoImportOk := false, cairoConvertOk := false,
      magick := ToolOutcome.notFound, pngExists := false, envVars := [] }
    "robot_icon_1024.png" (by decide) rfl

/-- Claim C6, counterexample: total failure is not the only per-run error
condition made visible to the user. In a run that succeeds via cairosvg
(exit status 0, so no total failure) the user still sees the printed
per-tool failure message for rsvg-convert; and in a run where the cairosvg
conversion raises after a successful import, the process terminates with
non-zero status even though ImageMagick was available and all three
converters were not exhausted. -/
theorem C6_counterexample :
    ((script_main
        { rsvg := ToolOutcome.calledProcessError, cairoImportOk := true,
          cairoConvertOk := true, magick := ToolOutcome.notFound,
          pngExists := true, envVars := [] }).exitCode = 0
      ∧ "rsvg-convert not found, trying cairosvg..." ∈
        (script_main
          { rsvg := ToolOutcome.calledProcessError, cairoImportOk := true,
            cairoConvertOk := true, magick := ToolOutcome.notFound,
            pngExists := true, envVars := [] }).output)
    ∧ ((script_main
        { rsvg := ToolOutcome.calledProcessError, cairoImportOk := true,
          cairoConvertOk := false, magick := ToolOutcome.success,
          pngExists := true, envVars := [] }).exitCode = 1
      ∧ (create_png_from_svg
          { rsvg := ToolOutcome.calledProcessError, cairoImportOk := true,
            cairoConvertOk := false, magick := ToolOutcome.success,
            pngExists := true, envVars := [] }).ret
          = Except.error PyError.cairosvgConversionError) := by
  decide

/-- Claim C6 as amended: when all three converters are unavailable, the
script prints the no-suitable-converter message, create_png_from_svg
returns None, and the process exits with status 1. Total failure is not,
however, the only per-run error condition made visible to the user: every
per-tool fall-through prints an informational message, and an uncaught
cairosvg conversion error terminates the process with non-zero status
without all three converters having been exhausted. -/
theorem C6_total_failure_visible : ∀ env : Env,
    (env.rsvg ≠ ToolOutcome.success → env.cairoImportOk = false →
      env.magick ≠ ToolOutcome.success →
      "❌ No suitable SVG to PNG converter found" ∈ (script_main env).output
      ∧ (create_png_from_svg env).ret = Except.ok none
      ∧ (script_main env).exitCode = 1)
    ∧ (env.rsvg ≠ ToolOutcome.success →
      "rsvg-convert not found, trying cairosvg..." ∈ (script_main env).output)
    ∧ (env.rsvg ≠ ToolOutcome.success → env.cairoImportOk = true →
      env.cairoConvertOk = false →
      (create_png_from_svg env).ret = Except.error PyError.cairosvgConversionError
      ∧ (script_main env).exitCode = 1) := by
  intro env
  obtain ⟨r, ci, cc, m, pe, ev⟩ := env
  cases r <;> cases ci <;> cases cc <;> cases m <;> cases pe <;>
    refine ⟨fun h1 h2 h3 => ?_, fun h1 => ?_, fun h1 h2 h3 => ?_⟩ <;>
    simp_all [script_main, create_png_from_svg]

/-- Witness for C6_total_failure_visible at a concrete environment in which
every candidate converter is unavailable. -/
theorem C6_total_failure_visible_witness :
    "❌ No suitable SVG to PNG converter found" ∈
      (script_main
        { rsvg := ToolOutcome.notFound, cairoImportOk := false, cairoConvertOk := false,
          magick := ToolOutcome.notFound, pngExists := false, envVars := [] }).output
    ∧ (create_png_from_svg
        { rsvg := ToolOutcome.notFound, cairoImportOk := false, cairoConvertOk := false,
          magick := ToolOutcome.notFound, pngExists := false, envVars := [] }).ret
        = Except.ok none
    ∧ (script_main
        { rsvg := ToolOutcome.notFound, cairoImportOk := false, cairoConvertOk := false,
          magick := ToolOutcome.notFound, pngExists := false, envVars := [] }).exitCode = 1 :=
  (C6_total_failure_visible
    { rsvg := ToolOutcome.notFound, cairoImportOk := false, cairoConvertOk := false,
      magick := ToolOutcome.notFound, pngExists := false, envVars := [] }).1
    (by decide) rfl (by decide)

/-- Claim C7: if rsvg-convert succeeds, the function prints exactly one
success line naming rsvg-convert, makes no further external call, and
returns the output path; and in general whichever converter succeeds first
is the one named in the success message alongside the returned path. -/
theorem C7_first_success_reported : ∀ env : Env,
    (env.rsvg = ToolOutcome.success →
      create_png_from_svg env =
        { output := ["✅ Created robot_icon_1024.png using rsvg-convert"],
          calls := [ToolCall.subprocessRun rsvgArgs],
          ret := Except.ok (some png_file) })
    ∧ (env.rsvg ≠ ToolOutcome.success → env.cairoImportOk = true → env.cairoConvertOk = true →
        "✅ Created robot_icon_1024.png using cairosvg" ∈ (create_png_from_svg env).output
        ∧ (create_png_from_svg env).ret = Except.ok (some png_file)
        ∧ ToolCall.subprocessRun magickArgs ∉ (create_png_from_svg env).calls)
    ∧ (env.rsvg ≠ ToolOutcome.success → env.cairoImportOk = false →
        env.magick = ToolOutcome.success →
        "✅ Created robot_icon_1024.png using ImageMagick" ∈ (create_png_from_svg env).output
        ∧ (create_png_from_svg env).ret = Except.ok (some png_file)) := by
  intro env
  obtain ⟨r, ci, cc, m, pe, ev⟩ := env
  cases r <;> cases ci <;> cases cc <;> cases m <;>
    refine ⟨fun h1 => ?_, fun h1 h2 h3 => ?_, fun h1 h2 h3 => ?_⟩ <;>
    simp_all [create_png_from_svg, png_file] <;> decide

/-- Witness for C7_first_success_reported: with rsvg-convert succeeding, the
run consists of that single call, the single rsvg-convert success line, and
the returned output path. -/
theorem C7_first_success_reported_witness :
    create_png_from_svg
      { rsvg := ToolOutcome.success, cairoImportOk := true, cairoConvertOk := true,
        magick := ToolOutcome.success, pngExists := true, envVars := [] } =
      { output := ["✅ Created robot_icon_1024.png using rsvg-convert"],
        calls := [ToolCall.subprocessRun rsvgArgs],
        ret := Except.ok (some png_file) } :=
  (C7_first_success_reported
    { rsvg := ToolOutcome.success, cairoImportOk := true, cairoConvertOk := true,
      magick := ToolOutcome.success, pngExists := true, envVars := [] }).1 rfl

/-- Claim C8: every run invokes the converters with exactly the fixed
argument shapes of the source — rsvg-convert with -w 1024 -h 1024 -o and the
two paths, cairosvg.svg2png in-process with output width and height 1024,
and ImageMagick convert with -background transparent -size 1024x1024
followed by the input path and the output path. -/
theorem C8_argument_shapes : ∀ env : Env,
    ((create_png_from_svg env).calls = [ToolCall.subprocessRun rsvgArgs]
      ∨ (create_png_from_svg env).calls =
          [ToolCall.subprocessRun rsvgArgs, ToolCall.cairosvgImport,
           ToolCall.cairosvgSvg2png svg_file png_file 1024 1024]
      ∨ (create_png_from_svg env).calls =
          [ToolCall.subprocessRun rsvgArgs, ToolCall.cairosvgImport,
           ToolCall.subprocessRun magickArgs])
    ∧ rsvgArgs = ["rsvg-convert", "-w", "1024", "-h", "1024", "-o",
                  "robot_icon_1024.png", "robot_icon.svg"]
    ∧ magickArgs = ["convert", "-background", "transparent", "-size", "1024x1024",
                    "robot_icon.svg", "robot_icon_1024.png"]
    ∧ svg_file = "robot_icon.svg" ∧ png_file = "robot_icon_1024.png" := by
  intro env
  obtain ⟨r, ci, cc, m, pe, ev⟩ := env
  cases r <;> cases ci <;> cases cc <;> cases m <;>
    simp [create_png_from_svg] <;> decide

/-- Claim C9: whenever create_png_from_svg returns normally, the returned
value is None or the string robot_icon_1024.png; no other value is possible
on any combination of converter outcomes. -/
theorem C9_return_value : ∀ env : Env, ∀ v : Option String,
    (create_png_from_svg env).ret = Except.ok v →
    v = none ∨ v = some "robot_icon_1024.png" := by
  intro env v h
  obtain ⟨r, ci, cc, m, pe, ev⟩ := env
  cases r <;> cases ci <;> cases cc <;> cases m <;>
    simp_all [create_png_from_svg, png_file]

/-- Witness for C9_return_value at a concrete environment in which
rsvg-convert succeeds and the returned value is the output path. -/
theorem C9_return_value_witness :
    (some "robot_icon_1024.png" : Option String) = none
    ∨ (some "robot_icon_1024.png" : Option String) = some "robot_icon_1024.png" :=
  C9_return_value
    { rsvg := ToolOutcome.success, cairoImportOk := false, cairoConvertOk := false,
      magick := ToolOutcome.notFound, pngExists := true, envVars := [] }
    (some "robot_icon_1024.png") (by decide)

/-- Claim C10: the run is a deterministic function of the outcomes of the
three converter attempts and the final file-existence check — two
environments agreeing on those five observations (even with different
environment variables) yield identical printed output, identical calls,
identical return value and identical exit status. -/
theorem C10_determinism : ∀ e1 e2 : Env, e1.rsvg = e2.rsvg →
    e1.cairoImportOk = e2.cairoImportOk → e1.cairoConvertOk = e2.cairoConvertOk →
    e1.magick = e2.magick → e1.pngExists = e2.pngExists →
    create_png_from_svg e1 = create_png_from_svg e2 ∧ script_main e1 = script_main e2 := by
  intro e1 e2 h1 h2 h3 h4 h5
  obtain ⟨r1, ci1, cc1, m1, pe1, ev1⟩ := e1
  obtain ⟨r2, ci2, cc2, m2, pe2, ev2⟩ := e2
  simp only at h1 h2 h3 h4 h5
  subst h1 h2 h3 h4 h5
  cases r1 <;> cases ci1 <;> cases cc1 <;> cases m1 <;> cases pe1 <;>
    simp [script_main, create_png_from_svg]

/-- Witness for C10_determinism on two concrete environments that differ
only in their environment variables. -/
theorem C10_determinism_witness :
    create_png_from_svg
      { rsvg := ToolOutcome.notFound, cairoImportOk := true, cairoConvertOk := true,
        magick := ToolOutcome.success, pngExists := true, envVars := [] } =
    create_png_from_svg
      { rsvg := ToolOutcome.notFound, cairoImportOk := true, cairoConvertOk := true,
        magick := ToolOutcome.success, pngExists := true, envVars := [("PATH", "/usr/bin")] }
    ∧ script_main
      { rsvg := ToolOutcome.notFound, cairoImportOk := true, cairoConvertOk := true,
        magick := ToolOutcome.success, pngExists := true, envVars := [] } =
    script_main
      { rsvg := ToolOutcome.notFound, cairoImportOk := true, cairoConvertOk := true,
        magick := ToolOutcome.success, pngExists := true, envVars := [("PATH", "/usr/bin")] } :=
  C10_determinism
    { rsvg := ToolOutcome.notFound, cairoImportOk := true, cairoConvertOk := true,
      magick := ToolOutcome.success, pngExists := true, envVars := [] }
    { rsvg := ToolOutcome.notFound, cairoImportOk := true, cairoConvertOk := true,
      magick := ToolOutcome.success, pngExists := true, envVars := [("PATH", "/usr/bin")] }
    rfl rfl rfl rfl rfl

end CreateIcon.Claims
